import Mathlib

/-!
# Verification of the HardIA chat gateway (`public/scripts/server.js`)

Shallow embedding of the `/api/chat` request handler: input validation,
model-name resolution, generation configuration, the 15 s timeout race with
`AbortController`, the `result.response` guard, the success envelope, and the
catch-block error classification.  The `express-rate-limit` middleware is a
library dependency whose algorithm is not in the repository; it is modelled
from the spec where indicated.

Machine model: JavaScript strings are lists of characters, wall-clock time is
`Nat` milliseconds since the epoch, and the event-loop behaviour of the
`Promise.race` between the adapter call and the two `setTimeout` timers is
embedded as a pure trace (`runRace`) that records when the race settles, how
often `controller.abort()` runs, and whether any timer armed by the handler
fires after the race has already settled.
-/

set_option autoImplicit false

namespace HardIA

/-! ### JavaScript string primitives -/

/-- ECMAScript `WhiteSpace` / `LineTerminator` characters, as consumed by
`String.prototype.trim` and by `parseInt`'s leading-whitespace skip. -/
def jsWhitespace (c : Char) : Bool :=
  c.toNat = 9 || c.toNat = 10 || c.toNat = 11 || c.toNat = 12 || c.toNat = 13 ||
  c.toNat = 32 || c.toNat = 160 || c.toNat = 0x1680 ||
  (0x2000 ≤ c.toNat && c.toNat ≤ 0x200A) ||
  c.toNat = 0x2028 || c.toNat = 0x2029 || c.toNat = 0x202F ||
  c.toNat = 0x205F || c.toNat = 0x3000 || c.toNat = 0xFEFF

/-- `String.prototype.trim`: strip leading and trailing JS whitespace. -/
def jsTrim (s : String) : String :=
  String.mk (((s.data.dropWhile jsWhitespace).reverse.dropWhile jsWhitespace).reverse)

/-- `sub` occurs contiguously inside the character list. -/
def hasInfix : List Char → List Char → Bool
  | [], sub => sub.isEmpty
  | c :: t, sub => List.isPrefixOf sub (c :: t) || hasInfix t sub

/-- `String.prototype.includes(sub)`: substring containment. -/
def jsIncludes (s sub : String) : Bool :=
  hasInfix s.data sub.data

/-- Accumulate a list of decimal digit characters into a number. -/
def digitsToNat (l : List Char) : Nat :=
  l.foldl (fun a c => a * 10 + (c.toNat - 48)) 0

/-- Parse the longest leading run of decimal digits; `none` when there is no
digit (`parseInt` yields `NaN` there). -/
def parseDecDigits (l : List Char) : Option Nat :=
  let ds := l.takeWhile (fun c => c.isDigit)
  if ds.isEmpty then none else some (digitsToNat ds)

/-- `parseInt(s)` with the default radix 10: skip leading whitespace, read an
optional sign, then the leading digits; `none` models `NaN`. -/
def jsParseInt (s : String) : Option Int :=
  match s.data.dropWhile jsWhitespace with
  | '+' :: rest => (parseDecDigits rest).map (fun n => (n : Int))
  | '-' :: rest => (parseDecDigits rest).map (fun n => -(n : Int))
  | l => (parseDecDigits l).map (fun n => (n : Int))

/-! ### Environment configuration -/

/-- The environment variables the chat route reads. `none` models an unset
variable (`undefined` in `process.env`). -/
structure Env where
  geminiModel : Option String
  maxTokens : Option String
  nodeEnv : Option String
  apiLimit : Option Nat
  deriving Repr, DecidableEq

/-- Line 69: `const modelName = process.env.GEMINI_MODEL || "gemini-pro";`
(an env var is either unset or a nonempty string, so `||` is `getD`). -/
def modelName (env : Env) : String :=
  env.geminiModel.getD "gemini-pro"

/-- Line 101: `maxOutputTokens: parseInt(process.env.MAX_TOKENS) || 1000`.
`parseInt(undefined)` is `NaN`; both `NaN` and `0` are falsy, so they fall
back to `1000`, while any other parsed integer — negative included — is kept. -/
def maxOutputTokens (maxTokensEnv : Option String) : Int :=
  match maxTokensEnv with
  | none => 1000
  | some s =>
    match jsParseInt s with
    | none => 1000
    | some k => if k = 0 then 1000 else k

/-- Lines 100-105: the per-request generation configuration object. -/
structure GenerationConfig where
  maxOutputTokensVal : Int
  temperature : ℚ
  topP : ℚ
  topK : Nat
  deriving Repr, DecidableEq

/-- Lines 100-105: `generationConfig` as constructed inside the handler, a
pure function of the environment alone. -/
def generationConfig (env : Env) : GenerationConfig :=
  { maxOutputTokensVal := maxOutputTokens env.maxTokens
    temperature := 7 / 10
    topP := 9 / 10
    topK := 40 }

/-! ### Request payload and validation -/

/-- The `message` field of the JSON body as the handler sees it: absent
(`undefined`), a string, or a non-string JSON value (whose JS truthiness is
recorded, since line 61 first tests `!message`). -/
inductive ReqMessage where
  | undef : ReqMessage
  | str : String → ReqMessage
  | nonString : Bool → ReqMessage
  deriving Repr, DecidableEq

/-- Line 61: `!message || typeof message !== "string" || message.trim().length < 5`. -/
def messageInvalid : ReqMessage → Bool
  | .undef => true
  | .nonString truthy => !truthy || true
  | .str s => (if s = "" then true else false) || (jsTrim s).length < 5

/-! ### Response timestamp (`new Date().toISOString()`) -/

/-- Days since the Unix epoch to a proleptic-Gregorian `(year, month, day)`.
Civil-from-days computation, restricted to the nonnegative epoch range the
handler can observe. -/
def civilFromDays (days : Nat) : Nat × Nat × Nat :=
  let z := days + 719468
  let era := z / 146097
  let doe := z % 146097
  let yoe := (doe - doe / 1460 + doe / 36524 - doe / 146096) / 365
  let y := yoe + era * 400
  let doy := doe - (365 * yoe + yoe / 4 - yoe / 100)
  let mp := (5 * doy + 2) / 153
  let d := doy - (153 * mp + 2) / 5 + 1
  let m := if mp < 10 then mp + 3 else mp - 9
  (if m ≤ 2 then y + 1 else y, m, d)

/-- A single decimal digit character. -/
def digitChar (n : Nat) : Char :=
  Char.ofNat (48 + n % 10)

/-- Two-digit zero-padded field. -/
def pad2 (n : Nat) : String :=
  String.mk [digitChar (n / 10), digitChar n]

/-- Three-digit zero-padded field. -/
def pad3 (n : Nat) : String :=
  String.mk [digitChar (n / 100), digitChar (n / 10), digitChar n]

/-- Four-digit zero-padded field. -/
def pad4 (n : Nat) : String :=
  String.mk [digitChar (n / 1000), digitChar (n / 100), digitChar (n / 10), digitChar n]

/-- `new Date(t).toISOString()` for an epoch-millisecond time `t` (years up to
9999, the simplified ISO-8601 `YYYY-MM-DDTHH:mm:ss.sssZ` shape). -/
def isoTimestamp (t : Nat) : String :=
  let c := civilFromDays (t / 86400000)
  pad4 c.1 ++ "-" ++ pad2 c.2.1 ++ "-" ++ pad2 c.2.2 ++ "T" ++
  pad2 (t / 3600000 % 24) ++ ":" ++ pad2 (t / 60000 % 60) ++ ":" ++
  pad2 (t / 1000 % 60) ++ "." ++ pad3 (t % 1000) ++ "Z"

/-! ### The adapter call and the timeout race -/

/-- The raw result `chat.sendMessage` resolves with: its `response` field may
be missing (line 131 guards `!result?.response`); a present response carries
`text()` and the optional `usageMetadata.totalTokenCount`. -/
structure UpstreamResponse where
  text : String
  totalTokenCount : Option Nat
  deriving Repr, DecidableEq

/-- `result` as resolved by the adapter promise. -/
structure RawResult where
  response : Option UpstreamResponse
  deriving Repr, DecidableEq

/-- A settled promise: fulfilled with a `RawResult` or rejected with an error
message. -/
inductive CallOutcome where
  | ok : RawResult → CallOutcome
  | error : String → CallOutcome
  deriving Repr, DecidableEq

/-- How the adapter promise behaves for one request: it settles at some time
after the call starts, or it never settles. -/
inductive AdapterBehavior where
  | settlesAt : Nat → CallOutcome → AdapterBehavior
  | never : AdapterBehavior
  deriving Repr, DecidableEq

/-- What lines 119-129 do on the event-loop timeline.  `settleTime` and
`outcome` are when and how the `Promise.race` settles; `abortCount` counts
invocations of `controller.abort()` over the whole timeline;
`danglingTimerFires` records whether a timer armed by these lines fires
strictly after the race has settled. -/
structure RaceTrace where
  settleTime : Nat
  outcome : CallOutcome
  abortCount : Nat
  danglingTimerFires : Bool
  deriving Repr, DecidableEq

/-- Lines 119-129.  Two timers are armed at call start for 15000 ms: the abort
timer (line 120, `controller.abort()`) and the race's rejection timer
(line 125, `reject(new Error("Timeout na resposta da API"))`).
If the adapter settles first, the race settles with the adapter's outcome;
`clearTimeout(timeout)` (line 129) then disarms the abort timer — but only on
fulfillment, because a rejection makes `await` throw past line 129.  The
rejection timer is anonymous and is never cleared on any path.  If the
adapter has not settled when the timers fire, both timers run: `abort()` is
invoked once and the race settles by rejecting with the timeout message. -/
def runRace (beh : AdapterBehavior) : RaceTrace :=
  match beh with
  | .settlesAt t out =>
    if t < 15000 then
      match out with
      | .ok r =>
        { settleTime := t, outcome := .ok r, abortCount := 0, danglingTimerFires := true }
      | .error e =>
        { settleTime := t, outcome := .error e, abortCount := 1, danglingTimerFires := true }
    else
      { settleTime := 15000, outcome := .error "Timeout na resposta da API",
        abortCount := 1, danglingTimerFires := false }
  | .never =>
    { settleTime := 15000, outcome := .error "Timeout na resposta da API",
      abortCount := 1, danglingTimerFires := false }

/-! ### Error classification and response envelopes -/

/-- Lines 150-152: `error.message.includes("Timeout") ? 504 :
error.message.includes("invalid") ? 400 : 500`. -/
def statusCode (msg : String) : Nat :=
  if jsIncludes msg "Timeout" then 504
  else if jsIncludes msg "invalid" then 400
  else 500

/-- The JSON error envelope `{success, error, details?}` (`none` models an
omitted `details` field, since `undefined` properties are dropped by
`res.json`). -/
structure ErrorBody where
  success : Bool
  error : String
  details : Option String
  deriving Repr, DecidableEq

/-- Lines 154-160: the catch-block response body for a caught error with
message `msg`. -/
def catchBody (env : Env) (msg : String) : ErrorBody :=
  { success := false
    error :=
      if jsIncludes msg "Timeout" then "Tempo de resposta excedido. Tente novamente."
      else "Erro ao processar sua solicitação. Por favor, tente novamente."
    details := if env.nodeEnv = some "development" then some msg else none }

/-- `tokensUsed` is a JSON value that is a number or a string. -/
inductive JsonVal where
  | num : Nat → JsonVal
  | str : String → JsonVal
  deriving Repr, DecidableEq

/-- Line 143: `result.response.usageMetadata?.totalTokenCount || "N/A"` —
`undefined` and `0` are both falsy and fall back to the string. -/
def tokensUsed (count : Option Nat) : JsonVal :=
  match count with
  | none => .str "N/A"
  | some n => if n = 0 then .str "N/A" else .num n

/-- Lines 139-144: the `data` object of a 200 response. -/
structure SuccessData where
  response : String
  timestamp : String
  model : String
  tokensUsedVal : JsonVal
  deriving Repr, DecidableEq

/-- A JSON response body: `{success:true, data}` or `{success:false, ...}`. -/
inductive ResponseBody where
  | ok : SuccessData → ResponseBody
  | err : ErrorBody → ResponseBody
  deriving Repr, DecidableEq

/-- Everything observable about one pass through the `/api/chat` handler:
the HTTP status and JSON body, the time the response is produced (ms after
the request starts), how many upstream `sendMessage` calls were made, how
often `controller.abort()` ran, and whether a timer armed by the handler
fires after the response. -/
structure ChatResponse where
  status : Nat
  body : ResponseBody
  respTime : Nat
  upstreamCalls : Nat
  abortCount : Nat
  danglingTimerFires : Bool
  deriving Repr, DecidableEq

/-- Line 64: the fixed validation-error message. -/
def invalidMessageText : String :=
  "Mensagem inválida. Forneça um texto com pelo menos 5 caracteres."

/-- Lines 56-162: the `/api/chat` handler body (after the rate limiter).
Validation (line 61) short-circuits with 400 before the model is ever
touched; otherwise the adapter call is made once and raced against the
15 s timers; a fulfilled race with a missing `response` field throws
`"Resposta inválida da API"` (line 132); any caught error goes through the
catch block (lines 147-161). -/
def handleChat (env : Env) (m : ReqMessage) (beh : AdapterBehavior) : ChatResponse :=
  if messageInvalid m then
    { status := 400
      body := .err { success := false, error := invalidMessageText, details := none }
      respTime := 0, upstreamCalls := 0, abortCount := 0, danglingTimerFires := false }
  else
    let trace := runRace beh
    match trace.outcome with
    | .error e =>
      { status := statusCode e, body := .err (catchBody env e)
        respTime := trace.settleTime, upstreamCalls := 1
        abortCount := trace.abortCount, danglingTimerFires := trace.danglingTimerFires }
    | .ok result =>
      match result.response with
      | none =>
        { status := statusCode "Resposta inválida da API"
          body := .err (catchBody env "Resposta inválida da API")
          respTime := trace.settleTime, upstreamCalls := 1
          abortCount := trace.abortCount, danglingTimerFires := trace.danglingTimerFires }
      | some r =>
        { status := 200
          body := .ok { response := r.text
                        timestamp := isoTimestamp trace.settleTime
                        model := modelName env
                        tokensUsedVal := tokensUsed r.totalTokenCount }
          respTime := trace.settleTime, upstreamCalls := 1
          abortCount := trace.abortCount, danglingTimerFires := trace.danglingTimerFires }

/-! ### Rate limiter and the full route -/

/-- Per-client window state: requests counted so far and when the current
window opened. -/
structure WindowState where
  count : Nat
  windowStart : Nat
  deriving Repr, DecidableEq

/-- Modelled from the spec: the `express-rate-limit` middleware algorithm is
library code not present in the repository; lines 34-43 only configure it
(`windowMs: 3600000`, `max: API_LIMIT || 100`, a fixed JSON denial message).
Per the spec's RateLimitWindow model, each client key holds `{count,
windowStart}`; the window resets once `windowMs` elapses; a request
increments the count and is denied once the count exceeds the quota. -/
def limiterCheck (maxReq : Nat) (windowMs : Nat) (st : String → Option WindowState)
    (key : String) (now : Nat) : (String → Option WindowState) × Bool :=
  let cur :=
    match st key with
    | some w => if now < w.windowStart + windowMs then w else { count := 0, windowStart := now }
    | none => { count := 0, windowStart := now }
  let w' : WindowState := { count := cur.count + 1, windowStart := cur.windowStart }
  (fun k => if k = key then some w' else st k, w'.count ≤ maxReq)

/-- Lines 37-40: the fixed denial body configured on the limiter. -/
def rateLimitBody : ErrorBody :=
  { success := false
    error := "Limite de requisições excedido. Tente novamente mais tarde."
    details := none }

/-- Line 56: `app.post("/api/chat", limiter, handler)` — the limiter runs
first, on the client key alone, and a denied request never reaches the
handler (no validation, no upstream call). `env.apiLimit.getD 100` is
line 12's `process.env.API_LIMIT || 100`. -/
def chatRoute (env : Env) (st : String → Option WindowState) (key : String) (now : Nat)
    (m : ReqMessage) (beh : AdapterBehavior) :
    (String → Option WindowState) × ChatResponse :=
  let checked := limiterCheck (env.apiLimit.getD 100) 3600000 st key now
  if checked.2 then
    (checked.1, handleChat env m beh)
  else
    (checked.1,
     { status := 429, body := .err rateLimitBody
       respTime := 0, upstreamCalls := 0, abortCount := 0, danglingTimerFires := false })

/-- An environment with nothing configured, used to instantiate universally
quantified theorems at a concrete point. -/
def envDefault : Env :=
  { geminiModel := none, maxTokens := none, nodeEnv := none, apiLimit := none }

/-- An environment whose `MAX_TOKENS` is the numeral string "-5". -/
def envNegTokens : Env :=
  { geminiModel := none, maxTokens := some "-5", nodeEnv := none, apiLimit := none }

/-! ### Helper lemmas -/

theorem pad2_length (n : Nat) : (pad2 n).length = 2 := rfl

theorem pad3_length (n : Nat) : (pad3 n).length = 3 := rfl

theorem pad4_length (n : Nat) : (pad4 n).length = 4 := rfl

/-- The embedded `toISOString` always produces the 24-character simplified
ISO-8601 layout `YYYY-MM-DDTHH:mm:ss.sssZ`. -/
theorem isoTimestamp_length (t : Nat) : (isoTimestamp t).length = 24 := by
  simp only [isoTimestamp, String.length_append, pad2_length, pad3_length, pad4_length]
  decide

theorem statusCode_timeout_msg : statusCode "Timeout na resposta da API" = 504 := by decide

theorem statusCode_resposta_msg : statusCode "Resposta inválida da API" = 500 := by decide

/-! ### Claim theorems -/

/-- Claim C1: for every request whose adapter call does not resolve within
15 seconds (it never settles before the deadline), the handler responds
HTTP 504 at 15 s after the call starts, and `controller.abort()` is invoked
exactly once (by the un-cleared abort timer). -/
theorem timeout_response (env : Env) (m : ReqMessage) (beh : AdapterBehavior)
    (hm : messageInvalid m = false)
    (hbeh : ∀ t out, beh = .settlesAt t out → 15000 ≤ t) :
    handleChat env m beh =
      { status := 504
        body := .err (catchBody env "Timeout na resposta da API")
        respTime := 15000, upstreamCalls := 1, abortCount := 1,
        danglingTimerFires := false } := by
  cases beh with
  | never => simp [handleChat, hm, runRace, statusCode_timeout_msg]
  | settlesAt t out =>
    have h := hbeh t out rfl
    simp [handleChat, hm, runRace, Nat.not_lt.mpr h, statusCode_timeout_msg]

theorem timeout_response_witness :
    handleChat envDefault (.str "hello") .never =
      { status := 504
        body := .err (catchBody envDefault "Timeout na resposta da API")
        respTime := 15000, upstreamCalls := 1, abortCount := 1,
        danglingTimerFires := false } :=
  timeout_response envDefault (.str "hello") .never (by decide) (fun _ _ h => nomatch h)

/-- Claim C2 (counterexample): with a valid message and an adapter that
fulfills at 1000 ms, the handler does return exactly the adapter's result
(200, the stub text), but a timer armed by the runner — the `Promise.race`
rejection timer of line 125, which no code path ever clears — still fires
after the response, so the timers are not all disarmed. -/
theorem dangling_timer_on_early_settlement :
    handleChat envDefault (.str "hello")
        (.settlesAt 1000 (.ok { response := some { text := "✅ Compatível", totalTokenCount := some 42 } })) =
      { status := 200
        body := .ok { response := "✅ Compatível",
                      timestamp := "1970-01-01T00:00:01.000Z",
                      model := "gemini-pro", tokensUsedVal := .num 42 }
        respTime := 1000, upstreamCalls := 1, abortCount := 0,
        danglingTimerFires := true } ∧
    (handleChat envDefault (.str "hello")
        (.settlesAt 1000 (.ok { response := some { text := "✅ Compatível", totalTokenCount := some 42 } }))).danglingTimerFires = true := by
  exact ⟨by decide, by decide⟩

/-- Claim C2 (amended): when the adapter settles within the 15 s deadline the
handler responds at the settlement time with exactly the adapter's result
(200 with its text on fulfillment with a present `response`) or its
classified failure; the abort timer is cleared on fulfillment (no abort ever
runs), but on rejection `clearTimeout` is skipped so `abort()` still runs
once, and the race's anonymous rejection timer is never cleared on any path,
so a timer armed by the runner always fires after the response. -/
theorem settled_result_returned (env : Env) (m : ReqMessage) (t : Nat) (out : CallOutcome)
    (hm : messageInvalid m = false) (ht : t < 15000) :
    (handleChat env m (.settlesAt t out)).respTime = t ∧
    (handleChat env m (.settlesAt t out)).danglingTimerFires = true ∧
    (∀ u, out = .ok { response := some u } →
      handleChat env m (.settlesAt t out) =
        { status := 200
          body := .ok { response := u.text, timestamp := isoTimestamp t,
                        model := modelName env, tokensUsedVal := tokensUsed u.totalTokenCount }
          respTime := t, upstreamCalls := 1, abortCount := 0,
          danglingTimerFires := true }) ∧
    (∀ e, out = .error e →
      handleChat env m (.settlesAt t out) =
        { status := statusCode e, body := .err (catchBody env e),
          respTime := t, upstreamCalls := 1, abortCount := 1,
          danglingTimerFires := true }) := by
  refine ⟨?_, ?_, ?_, ?_⟩
  · cases out with
    | ok r =>
      cases hr : r.response with
      | none => simp [handleChat, hm, runRace, ht, hr]
      | some u => simp [handleChat, hm, runRace, ht, hr]
    | error e => simp [handleChat, hm, runRace, ht]
  · cases out with
    | ok r =>
      cases hr : r.response with
      | none => simp [handleChat, hm, runRace, ht, hr]
      | some u => simp [handleChat, hm, runRace, ht, hr]
    | error e => simp [handleChat, hm, runRace, ht]
  · intro u hu; subst hu; simp [handleChat, hm, runRace, ht, modelName]
  · intro e he; subst he; simp [handleChat, hm, runRace, ht]

theorem settled_result_returned_witness :
    handleChat envDefault (.str "hello") (.settlesAt 5 (.error "boom")) =
      { status := statusCode "boom", body := .err (catchBody envDefault "boom"),
        respTime := 5, upstreamCalls := 1, abortCount := 1,
        danglingTimerFires := true } :=
  ((settled_result_returned envDefault (.str "hello") 5 (.error "boom")
      (by decide) (by decide)).2.2.2 "boom" rfl)

/-- Claim C3: a request body whose message is absent, not a string, or has
trimmed length below 5 gets HTTP 400 with `success:false`, the fixed error
text naming the 5-character minimum, and zero upstream calls. -/
theorem invalid_message_rejected (env : Env) (beh : AdapterBehavior) (m : ReqMessage)
    (hm : m = .undef ∨ (∃ b, m = .nonString b) ∨
          ∃ s, m = .str s ∧ (jsTrim s).length < 5) :
    handleChat env m beh =
      { status := 400
        body := .err { success := false, error := invalidMessageText, details := none }
        respTime := 0, upstreamCalls := 0, abortCount := 0, danglingTimerFires := false } ∧
    jsIncludes invalidMessageText "pelo menos 5 caracteres" = true := by
  have hinv : messageInvalid m = true := by
    rcases hm with h | ⟨b, h⟩ | ⟨s, h, hlen⟩
    · subst h; rfl
    · subst h; simp [messageInvalid]
    · subst h; simp [messageInvalid, hlen]
  exact ⟨by simp [handleChat, hinv], by decide⟩

theorem invalid_message_rejected_witness :
    handleChat envDefault (.str "hi") .never =
      { status := 400
        body := .err { success := false, error := invalidMessageText, details := none }
        respTime := 0, upstreamCalls := 0, abortCount := 0,
        danglingTimerFires := false } :=
  (invalid_message_rejected envDefault .never (.str "hi")
    (Or.inr (Or.inr ⟨"hi", rfl, by decide⟩))).1

/-- Claim C4: the catch-block classification is a pure function of the error
message — 504 when it contains "Timeout", otherwise 400 when it contains
"invalid", otherwise 500 — and always lands on exactly one of those three
statuses, so replaying the same failing stub replays the same status. -/
theorem statusCode_classification (m : String) :
    (jsIncludes m "Timeout" = true → statusCode m = 504) ∧
    (jsIncludes m "Timeout" = false → jsIncludes m "invalid" = true → statusCode m = 400) ∧
    (jsIncludes m "Timeout" = false → jsIncludes m "invalid" = false → statusCode m = 500) ∧
    (statusCode m = 504 ∨ statusCode m = 400 ∨ statusCode m = 500) := by
  unfold statusCode
  rcases h1 : jsIncludes m "Timeout" <;> rcases h2 : jsIncludes m "invalid" <;> simp

theorem statusCode_classification_witness :
    statusCode "Timeout na resposta da API" = 504 :=
  (statusCode_classification "Timeout na resposta da API").1 (by decide)

/-- Claim C5 (limiter modelled from the spec): with the quota at `limit` and a
client that has already made `limit` requests in the open window, the next
request is answered 429 with the fixed denial body, with zero upstream calls
and no timer or abort activity — uniformly in the payload `m` and adapter
behaviour `beh`, which the limiter never inspects. -/
theorem rate_limited_request (env : Env) (st : String → Option WindowState) (key : String)
    (now ws limit : Nat) (m : ReqMessage) (beh : AdapterBehavior)
    (henv : env.apiLimit = some limit)
    (hst : st key = some { count := limit, windowStart := ws })
    (hwin : now < ws + 3600000) :
    (chatRoute env st key now m beh).2 =
      { status := 429, body := .err rateLimitBody, respTime := 0, upstreamCalls := 0,
        abortCount := 0, danglingTimerFires := false } := by
  simp [chatRoute, limiterCheck, henv, hst, hwin, Nat.not_succ_le_self]

theorem rate_limited_request_witness :
    (chatRoute { envDefault with apiLimit := some 3 }
        (fun k => if k = "203.0.113.7" then some { count := 3, windowStart := 0 } else none)
        "203.0.113.7" 10 (.str "hello") .never).2 =
      { status := 429, body := .err rateLimitBody, respTime := 0, upstreamCalls := 0,
        abortCount := 0, danglingTimerFires := false } :=
  rate_limited_request { envDefault with apiLimit := some 3 }
    (fun k => if k = "203.0.113.7" then some { count := 3, windowStart := 0 } else none)
    "203.0.113.7" 10 0 3 (.str "hello") .never rfl (by simp) (by decide)

/-- Claim C6 (counterexample): in development mode a caught timeout —
classified 504, i.e. the Timeout kind, not InternalError — still carries the
internal error text in `details`, so detail is not reserved to the
InternalError kind. -/
theorem dev_details_leak_on_timeout :
    statusCode "Timeout na resposta da API" = 504 ∧
    (catchBody { geminiModel := none, maxTokens := none, nodeEnv := some "development",
                 apiLimit := none } "Timeout na resposta da API").details =
      some "Timeout na resposta da API" := by
  decide

/-- Claim C6 (amended): the client-facing `details` field carries the internal
error text exactly when `NODE_ENV` is `development`, for every failure kind;
outside development `details` is omitted and the `error` string is one of two
fixed user-safe messages selected by the classified kind alone (the timeout
text for 504, the generic text otherwise). -/
theorem error_detail_policy (env : Env) (msg : String) :
    ((catchBody env msg).details = if env.nodeEnv = some "development" then some msg else none) ∧
    ((catchBody env msg).success = false) ∧
    (env.nodeEnv ≠ some "development" →
      (catchBody env msg).details = none ∧
      ((statusCode msg = 504 ∧
        (catchBody env msg).error = "Tempo de resposta excedido. Tente novamente.") ∨
       (statusCode msg ≠ 504 ∧
        (catchBody env msg).error = "Erro ao processar sua solicitação. Por favor, tente novamente."))) := by
  refine ⟨rfl, rfl, fun hdev => ⟨by simp [catchBody, hdev], ?_⟩⟩
  unfold catchBody statusCode
  rcases h1 : jsIncludes msg "Timeout" <;> rcases h2 : jsIncludes msg "invalid" <;> simp

theorem error_detail_policy_witness :
    (catchBody envDefault "boom").details = none :=
  ((error_detail_policy envDefault "boom").2.2 (by simp [envDefault])).1

/-- Claim C7: when validation passes and the adapter fulfills before the
deadline with a present `response`, the handler answers 200 with
`success:true` and a data object holding the model's text, an ISO-8601
timestamp generated at response time (the 24-character
`YYYY-MM-DDTHH:mm:ss.sssZ` shape), and the resolved model identifier —
`GEMINI_MODEL` when set, else the fixed fallback `"gemini-pro"`. -/
theorem success_envelope (env : Env) (m : ReqMessage) (t : Nat) (r : UpstreamResponse)
    (hm : messageInvalid m = false) (ht : t < 15000) :
    handleChat env m (.settlesAt t (.ok { response := some r })) =
      { status := 200
        body := .ok { response := r.text, timestamp := isoTimestamp t,
                      model := env.geminiModel.getD "gemini-pro",
                      tokensUsedVal := tokensUsed r.totalTokenCount }
        respTime := t, upstreamCalls := 1, abortCount := 0,
        danglingTimerFires := true } ∧
    (isoTimestamp t).length = 24 := by
  refine ⟨?_, isoTimestamp_length t⟩
  simp [handleChat, hm, runRace, ht, modelName]

theorem success_envelope_witness :
    handleChat { envDefault with geminiModel := some "gemini-1.5-pro" } (.str "hello") 
        (.settlesAt 1000 (.ok { response := some { text := "ok", totalTokenCount := none } })) =
      { status := 200
        body := .ok { response := "ok", timestamp := isoTimestamp 1000,
                      model := "gemini-1.5-pro", tokensUsedVal := tokensUsed none }
        respTime := 1000, upstreamCalls := 1, abortCount := 0,
        danglingTimerFires := true } :=
  (success_envelope { envDefault with geminiModel := some "gemini-1.5-pro" } (.str "hello") 1000
    { text := "ok", totalTokenCount := none } (by decide) (by decide)).1

/-- Claim C8 (counterexample): with `MAX_TOKENS = "-5"`, the handler's
generation configuration carries `maxOutputTokens = -5`, which is not a
positive integer — `parseInt(x) || 1000` only rescues `NaN` and `0`, not
negative values. -/
theorem negative_max_tokens :
    (generationConfig envNegTokens).maxOutputTokensVal = -5 ∧
    ¬ 0 < (generationConfig envNegTokens).maxOutputTokensVal := by
  refine ⟨rfl, ?_⟩
  rw [show (generationConfig envNegTokens).maxOutputTokensVal = -5 from rfl]
  decide

/-- Claim C8 (amended): the per-request generation configuration is a pure
function of the environment with `temperature` fixed at 0.7, `topP` 0.9 and
`topK` 40; `maxOutputTokens` is `parseInt(MAX_TOKENS)` whenever that parses
to a nonzero integer (so it can be non-positive for negative numerals) and
1000 when `MAX_TOKENS` is unset, unparseable, or parses to 0; it is positive
whenever `MAX_TOKENS` parses to a positive integer. -/
theorem generation_config_spec (env : Env) :
    (generationConfig env).temperature = 7 / 10 ∧
    (generationConfig env).topP = 9 / 10 ∧
    (generationConfig env).topK = 40 ∧
    (generationConfig env).maxOutputTokensVal = maxOutputTokens env.maxTokens ∧
    (env.maxTokens = none → (generationConfig env).maxOutputTokensVal = 1000) ∧
    (∀ s, env.maxTokens = some s → jsParseInt s = none →
      (generationConfig env).maxOutputTokensVal = 1000) ∧
    (∀ s, env.maxTokens = some s → jsParseInt s = some 0 →
      (generationConfig env).maxOutputTokensVal = 1000) ∧
    (∀ s k, env.maxTokens = some s → jsParseInt s = some k → k ≠ 0 →
      (generationConfig env).maxOutputTokensVal = k) := by
  refine ⟨rfl, rfl, rfl, rfl, ?_, ?_, ?_, ?_⟩
  · intro h; simp [generationConfig, maxOutputTokens, h]
  · intro s hs hp; simp [generationConfig, maxOutputTokens, hs, hp]
  · intro s hs hp; simp [generationConfig, maxOutputTokens, hs, hp]
  · intro s k hs hp hk; simp [generationConfig, maxOutputTokens, hs, hp, hk]

theorem generation_config_spec_witness :
    (generationConfig envDefault).temperature = 7 / 10 ∧
    (generationConfig envDefault).maxOutputTokensVal = 1000 :=
  ⟨(generation_config_spec envDefault).1,
   (generation_config_spec envDefault).2.2.2.2.1 rfl⟩

/-- Claim C9: an adapter result that fulfills without a `response` field makes
line 132 throw `"Resposta inválida da API"`, whose text contains neither
`"Timeout"` nor the ASCII substring `"invalid"` (the accented `á` breaks the
match), so the catch block classifies it 500 — InternalError, not 400. -/
theorem missing_response_field_500 (env : Env) (m : ReqMessage) (t : Nat)
    (hm : messageInvalid m = false) (ht : t < 15000) :
    jsIncludes "Resposta inválida da API" "Timeout" = false ∧
    jsIncludes "Resposta inválida da API" "invalid" = false ∧
    handleChat env m (.settlesAt t (.ok { response := none })) =
      { status := 500, body := .err (catchBody env "Resposta inválida da API"),
        respTime := t, upstreamCalls := 1, abortCount := 0,
        danglingTimerFires := true } := by
  refine ⟨by decide, by decide, ?_⟩
  simp [handleChat, hm, runRace, ht, statusCode_resposta_msg]

theorem missing_response_field_500_witness :
    handleChat envDefault (.str "hello") (.settlesAt 1000 (.ok { response := none })) =
      { status := 500, body := .err (catchBody envDefault "Resposta inválida da API"),
        respTime := 1000, upstreamCalls := 1, abortCount := 0,
        danglingTimerFires := true } :=
  (missing_response_field_500 envDefault (.str "hello") 1000 (by decide) (by decide)).2.2

/-- Claim C10: in every successful response the `tokensUsed` field is the
upstream `usageMetadata.totalTokenCount` when present and nonzero, and the
string "N/A" when the count is absent or zero — so the field is not always
numeric. -/
theorem tokens_used_field (env : Env) (m : ReqMessage) (t : Nat) (r : UpstreamResponse)
    (hm : messageInvalid m = false) (ht : t < 15000) :
    ∃ d : SuccessData,
      (handleChat env m (.settlesAt t (.ok { response := some r }))).body = .ok d ∧
      d.tokensUsedVal = tokensUsed r.totalTokenCount ∧
      (∀ n, r.totalTokenCount = some n → n ≠ 0 → d.tokensUsedVal = .num n) ∧
      (r.totalTokenCount = some 0 → d.tokensUsedVal = .str "N/A") ∧
      (r.totalTokenCount = none → d.tokensUsedVal = .str "N/A") ∧
      (∀ n : Nat, tokensUsed none ≠ .num n) := by
  refine ⟨{ response := r.text, timestamp := isoTimestamp t,
            model := modelName env, tokensUsedVal := tokensUsed r.totalTokenCount }, ?_,
          rfl, ?_, ?_, ?_, ?_⟩
  · simp [handleChat, hm, runRace, ht]
  · intro n hn hne; simp [tokensUsed, hn, hne]
  · intro h; simp [tokensUsed, h]
  · intro h; simp [tokensUsed, h]
  · intro n; simp [tokensUsed]

theorem tokens_used_field_witness :
    ∃ d : SuccessData,
      (handleChat envDefault (.str "hello")
        (.settlesAt 1000 (.ok { response := some { text := "ok", totalTokenCount := some 0 } }))).body =
        .ok d ∧
      d.tokensUsedVal = .str "N/A" := by
  obtain ⟨d, hbody, -, -, hzero, -, -⟩ :=
    tokens_used_field envDefault (.str "hello") 1000
      { text := "ok", totalTokenCount := some 0 } (by decide) (by decide)
  exact ⟨d, hbody, hzero rfl⟩

end HardIA
